import Mathlib

/-!
Shallow embedding of the rdsline profile/connection core
(`rdsline/settings.py`, `rdsline/connections/rds_secretsmanager.py`,
`rdsline/connections/__init__.py`, `rdsline/results.py`, `rdsline/cli.py`).

Python dicts appear as association lists in insertion order; a Python
method that mutates `self` and possibly raises becomes a function
`State -> State × Option PyErr` (the returned state carries the mutations
performed before the exception, matching Python semantics).  External
collaborators (yaml/file I/O, the boto3 client provider, the remote
rds-data client, interactive prompts) are injected as function
parameters, exactly as `client_provider` is injected in the source.
-/

/-- The exceptions the embedded code can raise, one constructor per
raise-site taxonomy (the Python source raises plain `Exception`/`KeyError`/
`IndexError` with messages; we keep the structured data instead). -/
inductive PyErr where
  /-- `f"Profile '{profile_name}' not found in config"` -/
  | profileNotFound (name : String)
  /-- `f"Profile '{profile_name}' already exists"` -/
  | duplicateProfile (name : String)
  /-- `f"Missing required fields for profile: ..."` -/
  | missingFields (fields : List String)
  /-- `f"Unsupported database connection type: ..."` (the `.get` result may be absent) -/
  | unsupportedType (t : Option String)
  /-- Python `KeyError` from a `dict[...]` lookup -/
  | keyError (key : String)
  /-- Python `IndexError` from `arn_parts[3]` -/
  | indexError
  /-- an exception escaping the injected `client_provider` -/
  | providerError (msg : String)
  /-- an exception escaping `client.execute_statement` (the remote call) -/
  | backendError (msg : String)
  /-- `NotImplementedError("Execute in No op")` -/
  | notImplemented (msg : String)
  /-- an exception escaping `yaml.safe_load`/`open` while reading a config file -/
  | parseError (msg : String)
  deriving DecidableEq, Repr

/-- A Python float carried opaquely by its printed form: the only thing the
embedded code ever does with a `doubleValue` payload is `str(v)`. -/
structure PyFloat where
  printed : String
  deriving DecidableEq, Repr

/-- One backend typed cell (`val` in `_to_string`): a dict whose relevant keys
may each be absent.  The `blobValue`/`arrayValue` payloads are never inspected
(their formatters return fixed placeholders), so only presence is recorded. -/
structure TypedCell where
  isNull : Option Bool := none
  stringValue : Option String := none
  booleanValue : Option Bool := none
  doubleValue : Option PyFloat := none
  longValue : Option Int := none
  blobValue : Option Unit := none
  arrayValue : Option Unit := none
  deriving DecidableEq, Repr

/-- Python `str` of a bool. -/
def pyStrBool (b : Bool) : String :=
  if b then "True" else "False"

/-- `rds_secretsmanager._to_string`: the `known_types` dict is iterated in
insertion order (string, boolean, double, long, blob, array) after the
`"isNull" in val and val["isNull"]` check; absence of every known key
yields `"UNKNOWN"`. -/
def to_string (val : TypedCell) : String :=
  if val.isNull.getD false then "NULL"
  else
    match val.stringValue with
    | some v => v
    | none =>
      match val.booleanValue with
      | some v => pyStrBool v
      | none =>
        match val.doubleValue with
        | some v => v.printed
        | none =>
          match val.longValue with
          | some v => toString v
          | none =>
            match val.blobValue with
            | some _ => "BLOB"
            | none =>
              match val.arrayValue with
              | some _ => "ARRAY"
              | none => "UNKNOWN"

/-- One element of `response["columnMetadata"]` (§6 fixes the shape
`{"name": ...}`). -/
structure ColMeta where
  name : String
  deriving DecidableEq, Repr

/-- A raw `execute_statement` response dict: each top-level key may be absent. -/
structure RdsResponse where
  columnMetadata : Option (List ColMeta) := none
  records : Option (List (List TypedCell)) := none
  numberOfRecordsUpdated : Option Int := none

/-- `rdsline/results.py`: the closed set of statement results
(`QueryResult`, `DMLResult`, `NullResult`). -/
inductive StatementResult where
  | query (headers : List String) (rows : List (List String))
  | dml (number_updated : Int)
  | nullResult
  deriving DecidableEq, Repr

/-- `rds_secretsmanager._to_result`: the `if "columnMetadata" not in response`
guard returns a `DMLResult` only when `numberOfRecordsUpdated` is present;
otherwise control falls through to `response["columnMetadata"]` /
`response["records"]`, which raise `KeyError` on an absent key. -/
def to_result (response : RdsResponse) : Except PyErr StatementResult :=
  match response.columnMetadata with
  | none =>
    match response.numberOfRecordsUpdated with
    | some n => .ok (.dml n)
    | none => .error (.keyError "columnMetadata")
  | some cols =>
    match response.records with
    | none => .error (.keyError "records")
    | some recs =>
      .ok (.query (cols.map ColMeta.name) (recs.map (fun row => row.map to_string)))

/-- The injected rds-data client: called as
`execute_statement(resourceArn, database, secretArn, sql)` (with
`includeResultMetadata=True` always) and may fail with a backend error. -/
def Client : Type := String → String → String → String → Except String RdsResponse

/-- The injected `client_provider(profile, region)` of `settings.py`. -/
def ClientProvider : Type := String → String → Except String Client

/-- `rdsline/connections`: the `Connection` capability — the no-op variant and
the `RDSSecretsManagerConnection` variant. -/
inductive Connection where
  | noop
  | rds (cluster_arn : String) (secret_arn : String) (database : String) (client : Client)

/-- A profile configuration dict (§6 `ProfileFields`): each key may be absent.
`credentials_profile` flattens `config.get("credentials", {}).get("profile", ...)`:
`none` means the nested key is absent at either level. -/
structure ProfileConfig where
  type : Option String := none
  cluster_arn : Option String := none
  secret_arn : Option String := none
  database : Option String := none
  credentials_profile : Option String := none
  deriving DecidableEq, Repr

/-- Python `s.split(sep)` for a single-character separator, over the
character list (keeps empty fields, `"".split(sep) == [""]`). -/
def pySplitAux (sep : Char) : List Char → List Char → List String
  | [], acc => [String.mk acc.reverse]
  | c :: cs, acc =>
    if c = sep then String.mk acc.reverse :: pySplitAux sep cs []
    else pySplitAux sep cs (c :: acc)

/-- Python `s.split(sep)` (single-character separator). -/
def pySplit (s : String) (sep : Char) : List String :=
  pySplitAux sep s.toList []

/-- `settings._get_region`: `cluster_arn.split(":")[3]`, raising `IndexError`
when fewer than four colon-separated segments exist. -/
def get_region (cluster_arn : String) : Except PyErr String :=
  let arn_parts := pySplit cluster_arn ':'
  if h : 3 < arn_parts.length then .ok (arn_parts.get ⟨3, h⟩)
  else .error .indexError

/-- `settings._create_connection_from_profile`, in source evaluation order:
type check, `profile_config["cluster_arn"]`, region derivation, credentials
default, provider call, then the remaining `dict[...]` lookups used by the
`RDSSecretsManagerConnection` constructor. -/
def create_connection_from_profile (profile_config : ProfileConfig)
    (client_provider : ClientProvider) : Except PyErr Connection :=
  if profile_config.type ≠ some "rds-secretsmanager" then
    .error (.unsupportedType profile_config.type)
  else
    match profile_config.cluster_arn with
    | none => .error (.keyError "cluster_arn")
    | some cluster_arn =>
      match get_region cluster_arn with
      | .error e => .error e
      | .ok region =>
        let aws_profile := profile_config.credentials_profile.getD "default"
        match client_provider aws_profile region with
        | .error msg => .error (.providerError msg)
        | .ok client =>
          match profile_config.secret_arn with
          | none => .error (.keyError "secret_arn")
          | some secret_arn =>
            match profile_config.database with
            | none => .error (.keyError "database")
            | some database =>
              .ok (.rds cluster_arn secret_arn database client)

/-- `settings.DEFAULT_PROFILE` -/
def DEFAULT_PROFILE : String := "default"

/-- `settings.Settings`: `profiles` is a Python dict (insertion-ordered
association list with unique keys), plus the stored `client_provider`. -/
structure Settings where
  profiles : List (String × ProfileConfig)
  current_profile : String
  connection : Connection
  client_provider : ClientProvider

/-- `Settings.__init__`. -/
def Settings.init (client_provider : ClientProvider) : Settings :=
  { profiles := [], current_profile := DEFAULT_PROFILE, connection := .noop,
    client_provider := client_provider }

/-- `Settings.switch_profile`: note the source assigns
`self.current_profile = profile_name` *before* building the connection, so a
construction failure leaves the new name in place with the old connection. -/
def Settings.switch_profile (s : Settings) (profile_name : String) :
    Settings × Option PyErr :=
  match s.profiles.lookup profile_name with
  | none => (s, some (.profileNotFound profile_name))
  | some pc =>
    let s1 := { s with current_profile := profile_name }
    match create_connection_from_profile pc s.client_provider with
    | .error e => (s1, some e)
    | .ok c => ({ s1 with connection := c }, none)

/-- The two config-file schema shapes accepted by `Settings.load_from_file`
(§6): a top-level `profiles` mapping, or a bare legacy profile dict. -/
inductive Config where
  | multi (profiles : List (String × ProfileConfig))
  | legacy (p : ProfileConfig)

/-- `Settings.load_from_file`, after `yaml.safe_load` (file reading and yaml
parsing are external and happen at the call sites, see `Env.fs`): populate
`self.profiles` from either shape, then `self.switch_profile(DEFAULT_PROFILE)`. -/
def Settings.load_from_file (s : Settings) (config : Config) :
    Settings × Option PyErr :=
  let s1 :=
    match config with
    | .multi profiles => { s with profiles := profiles }
    | .legacy p => { s with profiles := [(DEFAULT_PROFILE, p)] }
  s1.switch_profile DEFAULT_PROFILE

/-- `Settings.get_profile_names`. -/
def Settings.get_profile_names (s : Settings) : List String :=
  s.profiles.map Prod.fst

/-- `Settings.get_current_profile`. -/
def Settings.get_current_profile (s : Settings) : String :=
  s.current_profile

/-- The `missing_fields` list comprehension of `Settings.add_profile`
(`required_fields = ["type", "cluster_arn", "secret_arn", "database"]`,
kept in that order). -/
def missing_fields (config : ProfileConfig) : List String :=
  (if config.type.isNone then ["type"] else []) ++
  (if config.cluster_arn.isNone then ["cluster_arn"] else []) ++
  (if config.secret_arn.isNone then ["secret_arn"] else []) ++
  (if config.database.isNone then ["database"] else [])

/-- `Settings.add_profile`: duplicate check, required-key presence check,
type-value check, then insertion (a fresh dict key appends in order). -/
def Settings.add_profile (s : Settings) (profile_name : String)
    (config : ProfileConfig) : Settings × Option PyErr :=
  if (s.profiles.lookup profile_name).isSome then
    (s, some (.duplicateProfile profile_name))
  else
    let missing := missing_fields config
    if missing ≠ [] then (s, some (.missingFields missing))
    else if config.type ≠ some "rds-secretsmanager" then
      (s, some (.unsupportedType config.type))
    else
      ({ s with profiles := s.profiles ++ [(profile_name, config)] }, none)

/-- `Connection.execute`: the no-op variant raises
`NotImplementedError("Execute in No op")`; the rds variant calls the bound
client with its stored identifiers and converts the response via
`_to_result`, surfacing remote failures verbatim. -/
def Connection.execute : Connection → String → Except PyErr StatementResult
  | .noop, _ => .error (.notImplemented "Execute in No op")
  | .rds cluster_arn secret_arn database client, sql =>
    match client cluster_arn database secret_arn sql with
    | .error msg => .error (.backendError msg)
    | .ok response => to_result response

/-- Python `str(connection)`: the rds variant implements `__str__`; the no-op
variant falls back to the default `object` repr (address elided here, no
claim depends on it). -/
def Connection.toStr : Connection → String
  | .noop => "<rdsline.connections.NoopConnection object>"
  | .rds cluster_arn secret_arn database _ =>
    "Type: rds-secretsmanager\n" ++
    "Cluster arn: " ++ cluster_arn ++ "\n" ++
    "Secret arn: " ++ secret_arn ++ "\n" ++
    "Database: " ++ database

/-- Python truthiness test `line and line[0] == "."`: nonempty with a given
first character. -/
def firstCharIs (s : String) (c : Char) : Bool :=
  match s.toList.head? with
  | some d => d = c
  | none => false

/-- Python `line.endswith(";")` (single-character suffix). -/
def endsWithChar (s : String) (c : Char) : Bool :=
  match s.toList.getLast? with
  | some d => d = c
  | none => false

/-- `cli._help()`. -/
def helpText : String :=
  String.intercalate "\n"
    [ ".quit - quits the REPL",
      ".config <config_file> - sets new connection settings from a file",
      ".show - displays current connection settings",
      ".debug - toggle debugging information",
      ".profile [name] - show current connection or switch to a different profile",
      ".profiles - list available profiles",
      ".addprofile - add a new profile interactively" ]

/-- One line printed by the loop.  `errorText e` stands for a printed line
that embeds `str(ex)` (`f"Error: {str(ex)}"` at the flush site,
`f"ERROR: {str(ex)}"` inside the `.profile` handler): the structured
exception is kept instead of its rendered message. -/
inductive Output where
  | text (s : String)
  | result (r : StatementResult)
  | errorText (e : PyErr)

/-- The mutable state of `cli.main`'s loop: the `ConfigCommand`'s settings and
`config_file`, the `DebugCommand` flag, and the SQL `buffer`.  (The prompt
string is display-only and omitted.) -/
structure LoopState where
  settings : Settings
  config_file : Option String
  is_debug : Bool
  buffer : String

/-- The external world of one loop step: `fs` is `open` + `yaml.safe_load`
for `.config` (an `Except.error` is an exception escaping them), and
`addprofile` abstracts the interactive `.addprofile` prompt flow (returning
the mutated state, an uncaught exception if any, and its printed lines). -/
structure Env where
  fs : String → Except PyErr Config
  addprofile : LoopState → LoopState × Option PyErr × List Output

/-- The outcome of one loop iteration: the state after the line, the lines
printed, the SQL strings passed to `connection.execute`, and—when an
exception escapes the loop body—the uncaught exception that terminates the
process. -/
structure StepResult where
  state : LoopState
  printed : List Output
  execCalls : List String
  crashed : Option PyErr

/-- `ConfigCommand.load_config` as dispatched from the loop: argument-count
check, then `settings.load_from_file` on the named file; any exception from
reading/parsing/loading propagates (the loop has no handler around command
dispatch).  `os.path.expanduser` is modelled as the identity. -/
def config_command (env : Env) (st : LoopState) (cmd_args : List String) :
    StepResult :=
  if cmd_args.length < 2 then
    { state := st, printed := [.text "ERROR: Expecting config file"],
      execCalls := [], crashed := none }
  else
    let file := cmd_args.getD 1 ""
    let st1 := { st with config_file := some file }
    match env.fs file with
    | .error e => { state := st1, printed := [], execCalls := [], crashed := some e }
    | .ok cfg =>
      match st1.settings.load_from_file cfg with
      | (s2, some e) =>
        { state := { st1 with settings := s2 }, printed := [],
          execCalls := [], crashed := some e }
      | (s2, none) =>
        { state := { st1 with settings := s2 },
          printed := [.text ("Loaded configuration from " ++ file)],
          execCalls := [], crashed := none }

/-- `ProfileCommand.switch_profile`: no argument shows `str(connection)`,
wrong arity is an error line, and the actual switch is wrapped in
`try/except` — the exception message is printed and the (possibly mutated)
settings are kept. -/
def profile_command (st : LoopState) (cmd_args : List String) : StepResult :=
  if cmd_args.length = 1 then
    { state := st, printed := [.text st.settings.connection.toStr],
      execCalls := [], crashed := none }
  else if cmd_args.length ≠ 2 then
    { state := st, printed := [.text "ERROR: Expecting profile name"],
      execCalls := [], crashed := none }
  else
    let profile_name := cmd_args.getD 1 ""
    match st.settings.switch_profile profile_name with
    | (s1, some e) =>
      { state := { st with settings := s1 }, printed := [.errorText e],
        execCalls := [], crashed := none }
    | (s1, none) =>
      { state := { st with settings := s1 },
        printed := [.text ("Switched to profile: " ++ profile_name)],
        execCalls := [], crashed := none }

/-- `ProfileCommand.list_profiles`. -/
def list_profiles (s : Settings) : String :=
  let profiles := s.get_profile_names
  if profiles = [] then "No profiles configured"
  else
    String.intercalate "\n"
      ("Available profiles:" ::
        profiles.map (fun p =>
          " " ++ (if p = s.get_current_profile then "*" else " ") ++ " " ++ p))

/-- One iteration of `cli.main`'s `while True` body on a line already read by
`_read` (so the line is not `.quit` and not EOF): dot-command dispatch,
flush-and-execute on a terminator or empty line, or accumulation. -/
def step (env : Env) (st : LoopState) (line : String) : StepResult :=
  if firstCharIs line '.' = true then
    let cmd_args := pySplit line ' '
    let cmd := cmd_args.headD ""
    if cmd = ".help" then
      { state := st, printed := [.text helpText], execCalls := [], crashed := none }
    else if cmd = ".show" then
      { state := st, printed := [.text st.settings.connection.toStr],
        execCalls := [], crashed := none }
    else if cmd = ".debug" then
      { state := { st with is_debug := !st.is_debug },
        printed := [.text ("Debugging is " ++ (if !st.is_debug then "ON" else "OFF"))],
        execCalls := [], crashed := none }
    else if cmd = ".config" then config_command env st cmd_args
    else if cmd = ".profile" then profile_command st cmd_args
    else if cmd = ".profiles" then
      { state := st, printed := [.text (list_profiles st.settings)],
        execCalls := [], crashed := none }
    else if cmd = ".addprofile" then
      let (st1, e, outs) := env.addprofile st
      { state := st1, printed := outs, execCalls := [], crashed := e }
    else
      { state := st, printed := [], execCalls := [], crashed := none }
  else if endsWithChar line ';' = true ∨ line = "" then
    let buf := st.buffer ++ line
    match st.settings.connection.execute buf with
    | .ok r =>
      { state := { st with buffer := "" }, printed := [.result r],
        execCalls := [buf], crashed := none }
    | .error e =>
      { state := { st with buffer := "" }, printed := [.errorText e],
        execCalls := [buf], crashed := none }
  else
    { state := { st with buffer := st.buffer ++ line ++ " " }, printed := [],
      execCalls := [], crashed := none }

/-- The accumulated outcome of feeding a whole input script to the loop. -/
structure RunResult where
  state : LoopState
  printed : List Output
  execCalls : List String
  crashed : Option PyErr

/-- Run the loop over a list of input lines: `_read` exits on `.quit` (and on
end-of-input, discarding any unterminated buffer), and an exception escaping
the loop body terminates the run. -/
def runLines (env : Env) (st : LoopState) : List String → RunResult
  | [] => { state := st, printed := [], execCalls := [], crashed := none }
  | line :: rest =>
    if line = ".quit" then
      { state := st, printed := [], execCalls := [], crashed := none }
    else
      let r := step env st line
      match r.crashed with
      | some e =>
        { state := r.state, printed := r.printed, execCalls := r.execCalls,
          crashed := some e }
      | none =>
        let rr := runLines env r.state rest
        { state := rr.state, printed := r.printed ++ rr.printed,
          execCalls := r.execCalls ++ rr.execCalls, crashed := rr.crashed }

/-- A concrete injected client that always fails remotely (used to
instantiate universally quantified theorems). -/
def client0 : Client := fun _ _ _ _ => .error "backend unavailable"

/-- A concrete client provider that always succeeds. -/
def prov0 : ClientProvider := fun _ _ => .ok client0

/-- A concrete provider whose yielded client answers one query with a
one-column, one-record response (`columnMetadata [{"name":"a"}]`,
records `[[{"longValue": 42}]]`). -/
def client1 : Client := fun _ _ _ _ =>
  .ok { columnMetadata := some [{ name := "a" }],
        records := some [[{ longValue := some 42 }]] }

example : to_string { longValue := some 42 } = "42" := by decide
example : to_string { isNull := some true, stringValue := some "x" } = "NULL" := by decide
example : to_string { isNull := some false } = "UNKNOWN" := by decide
example : to_string { booleanValue := some true, doubleValue := some ⟨"2.0"⟩ } = "True" := by decide
example : pySplit "" ':' = [""] := by decide
example : pySplit "arn:aws:rds:us-east-1:1:cluster:c" ':' =
    ["arn", "aws", "rds", "us-east-1", "1", "cluster", "c"] := by decide
example : pySplit ".profile x" ' ' = [".profile", "x"] := by decide

/-- C4: for every typed cell, decode returns "NULL" whenever the null flag is
set true, regardless of any other field; otherwise it returns the formatter
output of the first populated field in the fixed priority order string,
boolean ("True"/"False"), double, integer (default conversion), blob and
array (fixed placeholders); and when none of the known fields are populated
it returns "UNKNOWN" rather than failing. -/
theorem decoder_priority (val : TypedCell) :
    (val.isNull = some true → to_string val = "NULL") ∧
    (val.isNull ≠ some true →
      (∀ v, val.stringValue = some v → to_string val = v) ∧
      (val.stringValue = none → ∀ v, val.booleanValue = some v →
        to_string val = pyStrBool v) ∧
      (val.stringValue = none → val.booleanValue = none →
        ∀ v, val.doubleValue = some v → to_string val = v.printed) ∧
      (val.stringValue = none → val.booleanValue = none → val.doubleValue = none →
        ∀ v, val.longValue = some v → to_string val = toString v) ∧
      (val.stringValue = none → val.booleanValue = none → val.doubleValue = none →
        val.longValue = none → val.blobValue.isSome → to_string val = "BLOB") ∧
      (val.stringValue = none → val.booleanValue = none → val.doubleValue = none →
        val.longValue = none → val.blobValue = none → val.arrayValue.isSome →
        to_string val = "ARRAY") ∧
      (val.stringValue = none → val.booleanValue = none → val.doubleValue = none →
        val.longValue = none → val.blobValue = none → val.arrayValue = none →
        to_string val = "UNKNOWN")) := by
  constructor
  · intro h
    simp [to_string, h]
  · intro h
    have hnull : val.isNull.getD false = false := by
      cases hn : val.isNull with
      | none => rfl
      | some b =>
        cases b with
        | false => rfl
        | true => exact absurd hn h
    refine ⟨?_, ?_, ?_, ?_, ?_, ?_, ?_⟩
    · intros; simp_all [to_string]
    · intros; simp_all [to_string]
    · intros; simp_all [to_string]
    · intros; simp_all [to_string]
    · intro h1 h2 h3 h4 hb
      obtain ⟨u, hu⟩ := Option.isSome_iff_exists.mp hb
      simp_all [to_string]
    · intro h1 h2 h3 h4 h5 ha
      obtain ⟨u, hu⟩ := Option.isSome_iff_exists.mp ha
      simp_all [to_string]
    · intros; simp_all [to_string]

/-- C4 witness: concrete instances of `decoder_priority`. -/
theorem decoder_priority_witness :
    to_string { isNull := some true, longValue := some 7 } = "NULL" ∧
    to_string { booleanValue := some false, longValue := some 7 } = "False" ∧
    to_string { isNull := some false } = "UNKNOWN" := by
  refine ⟨(decoder_priority _).1 rfl, ?_, ?_⟩
  · exact ((decoder_priority _).2 (by decide)).2.1 rfl false rfl
  · exact ((decoder_priority _).2 (by decide)).2.2.2.2.2.2 rfl rfl rfl rfl rfl rfl

/-- C7: a backend response carrying column metadata (the §6 query shape, with
its records) converts to a Query result whose headers are the metadata names
in the given order and whose rows are the per-row decoded cells in the given
row and column order; a response carrying only an updated-row count converts
to a Mutation result with that count; a response with neither shape is an
error. -/
theorem to_result_shapes (response : RdsResponse) :
    (∀ cols recs, response.columnMetadata = some cols → response.records = some recs →
      to_result response =
        .ok (.query (cols.map ColMeta.name)
          (recs.map (fun row => row.map to_string)))) ∧
    (response.columnMetadata = none → ∀ n, response.numberOfRecordsUpdated = some n →
      to_result response = .ok (.dml n)) ∧
    (response.columnMetadata = none → response.numberOfRecordsUpdated = none →
      ∃ e, to_result response = .error e) := by
  refine ⟨?_, ?_, ?_⟩
  · intro cols recs hc hr
    simp [to_result, hc, hr]
  · intro hc n hn
    simp [to_result, hc, hn]
  · intro hc hn
    exact ⟨.keyError "columnMetadata", by simp [to_result, hc, hn]⟩

/-- C7 witness: the spec scenario — `columnMetadata [{"name":"a"}]` with one
record `[{"longValue": 42}]` yields headers `["a"]` and rows `[["42"]]`, and
`{"numberOfRecordsUpdated": 3}` yields a Mutation result with count 3. -/
theorem to_result_shapes_witness :
    to_result { columnMetadata := some [{ name := "a" }],
                records := some [[{ longValue := some 42 }]] }
      = .ok (.query ["a"] [["42"]]) ∧
    to_result { numberOfRecordsUpdated := some 3 } = .ok (.dml 3) := by
  constructor
  · have h := (to_result_shapes
      { columnMetadata := some [{ name := "a" }],
        records := some [[{ longValue := some 42 }]] }).1
      [{ name := "a" }] [[{ longValue := some 42 }]] rfl rfl
    simpa using h
  · exact (to_result_shapes { numberOfRecordsUpdated := some 3 }).2.1 rfl 3 rfl

/-- C9: loading any legacy single-profile configuration (a bare profile dict,
no `profiles` key) leaves the store with exactly one profile, named
"default", whose fields are exactly the legacy top-level fields — whatever
the prior store state and whether or not the subsequent activation of
"default" succeeds. -/
theorem legacy_load_roundtrip (s : Settings) (p : ProfileConfig) :
    (s.load_from_file (.legacy p)).1.profiles = [(DEFAULT_PROFILE, p)] := by
  unfold Settings.load_from_file Settings.switch_profile
  cases h : ([(DEFAULT_PROFILE, p)] : List (String × ProfileConfig)).lookup DEFAULT_PROFILE with
  | none => simp_all
  | some pc =>
    cases hc : create_connection_from_profile pc s.client_provider with
    | error e => simp_all
    | ok c => simp_all

/-- Helper: a successful `switch_profile` activates exactly the looked-up
profile — the current name becomes the requested one, the profiles mapping is
untouched, and the connection is the materialization of that profile. -/
theorem switch_profile_success (s : Settings) (name : String)
    (h : (s.switch_profile name).2 = none) :
    (s.switch_profile name).1.current_profile = name ∧
    (s.switch_profile name).1.profiles = s.profiles ∧
    ∃ pc, s.profiles.lookup name = some pc ∧
      create_connection_from_profile pc s.client_provider =
        .ok (s.switch_profile name).1.connection := by
  cases hl : s.profiles.lookup name with
  | none => simp [Settings.switch_profile, hl] at h
  | some pc =>
    cases hc : create_connection_from_profile pc s.client_provider with
    | error e => simp [Settings.switch_profile, hl, hc] at h
    | ok c =>
      refine ⟨?_, ?_, pc, rfl, ?_⟩ <;> simp [Settings.switch_profile, hl, hc]

/-- A profile of the recognized type whose construction nevertheless fails:
its target identifier has fewer than four colon-separated segments. -/
def pcBadArn : ProfileConfig :=
  { type := some "rds-secretsmanager", cluster_arn := some "x",
    secret_arn := some "s", database := some "d" }

/-- A store holding `pcBadArn` under the name "p". -/
def s_bad : Settings :=
  { profiles := [("p", pcBadArn)], current_profile := "default",
    connection := .noop, client_provider := prov0 }

/-- C1 counterexample: switching to an existing profile whose connection
construction fails does mutate `active_profile_name` (from "default" to "p")
even though the call fails — switch is not all-or-nothing. -/
theorem switch_not_atomic_counterexample :
    (s_bad.switch_profile "p").2 = some .indexError ∧
    s_bad.current_profile = "default" ∧
    (s_bad.switch_profile "p").1.current_profile = "p" := by
  decide

/-- C1 (amended): a failing `switch(name)` never changes `active_connection`
or the profiles mapping; when the failure is ProfileNotFound the whole state
is untouched, but when `name` exists and connection construction fails,
`active_profile_name` has already been set to `name`. -/
theorem switch_profile_failure (s : Settings) (name : String)
    (h : (s.switch_profile name).2.isSome) :
    (s.switch_profile name).1.connection = s.connection ∧
    (s.switch_profile name).1.profiles = s.profiles ∧
    (s.profiles.lookup name = none → (s.switch_profile name).1 = s) ∧
    (∀ pc, s.profiles.lookup name = some pc →
      (s.switch_profile name).1.current_profile = name) := by
  cases hl : s.profiles.lookup name with
  | none => refine ⟨?_, ?_, ?_, ?_⟩ <;> simp [Settings.switch_profile, hl]
  | some pc =>
    cases hc : create_connection_from_profile pc s.client_provider with
    | error e =>
      refine ⟨?_, ?_, ?_, ?_⟩ <;> simp [Settings.switch_profile, hl, hc]
    | ok c => simp [Settings.switch_profile, hl, hc] at h

/-- C1 witness: `switch_profile_failure` at a concrete failing switch. -/
theorem switch_profile_failure_witness :
    (s_bad.switch_profile "p").2.isSome = true ∧
    (s_bad.switch_profile "p").1.connection = s_bad.connection := by
  refine ⟨by decide, ?_⟩
  exact (switch_profile_failure s_bad "p" (by decide)).1

/-- C2 counterexample: the freshly constructed store violates the claimed
invariant — `active_profile_name` is "default", which is neither empty nor a
key of the (empty) profiles mapping. -/
theorem store_invariant_counterexample :
    ¬((Settings.init prov0).current_profile = "" ∨
      ((Settings.init prov0).profiles.lookup
        (Settings.init prov0).current_profile).isSome) := by
  decide

/-- C2 (amended): what the operations actually establish — construction
yields `current_profile = "default"` with an empty profiles mapping and the
null connection (so the name is not a key); `add` never changes the current
name or the connection; a successful `switch` (and a successful `load`)
leaves the current name bound in `profiles` with `active_connection` the
materialization of its profile. -/
theorem store_invariant_amended (prov : ClientProvider) (s : Settings)
    (name : String) (pc : ProfileConfig) (cfg : Config) :
    ((Settings.init prov).current_profile = DEFAULT_PROFILE ∧
      (Settings.init prov).profiles = [] ∧
      (Settings.init prov).connection = .noop) ∧
    ((s.add_profile name pc).1.current_profile = s.current_profile ∧
      (s.add_profile name pc).1.connection = s.connection) ∧
    ((s.switch_profile name).2 = none →
      (s.switch_profile name).1.current_profile = name ∧
      ∃ pc2, (s.switch_profile name).1.profiles.lookup name = some pc2 ∧
        create_connection_from_profile pc2 s.client_provider =
          .ok (s.switch_profile name).1.connection) ∧
    ((s.load_from_file cfg).2 = none →
      (s.load_from_file cfg).1.current_profile = DEFAULT_PROFILE ∧
      ∃ pc2, (s.load_from_file cfg).1.profiles.lookup DEFAULT_PROFILE = some pc2 ∧
        create_connection_from_profile pc2 s.client_provider =
          .ok (s.load_from_file cfg).1.connection) := by
  refine ⟨⟨rfl, rfl, rfl⟩, ?_, ?_, ?_⟩
  · unfold Settings.add_profile
    split
    · exact ⟨rfl, rfl⟩
    · dsimp only
      split
      · exact ⟨rfl, rfl⟩
      · split
        · exact ⟨rfl, rfl⟩
        · exact ⟨rfl, rfl⟩
  · intro h
    obtain ⟨h1, h2, pc2, hl, hc⟩ := switch_profile_success s name h
    exact ⟨h1, pc2, by rw [h2]; exact hl, hc⟩
  · intro h
    cases cfg with
    | multi profiles =>
      obtain ⟨h1, h2, pc2, hl, hc⟩ :=
        switch_profile_success { s with profiles := profiles } DEFAULT_PROFILE h
      exact ⟨h1, pc2, by rw [show (s.load_from_file (.multi profiles)).1.profiles =
        profiles from h2]; exact hl, hc⟩
    | legacy p =>
      obtain ⟨h1, h2, pc2, hl, hc⟩ :=
        switch_profile_success { s with profiles := [(DEFAULT_PROFILE, p)] }
          DEFAULT_PROFILE h
      exact ⟨h1, pc2, by rw [show (s.load_from_file (.legacy p)).1.profiles =
        [(DEFAULT_PROFILE, p)] from h2]; exact hl, hc⟩

/-- A fully well-formed profile (valid ARN with ≥ 4 colon segments). -/
def pcGood : ProfileConfig :=
  { type := some "rds-secretsmanager",
    cluster_arn := some "arn:aws:rds:us-east-1:1:cluster:c",
    secret_arn := some "arn:aws:secretsmanager:us-east-1:1:secret:s",
    database := some "db" }

/-- A store holding `pcGood` under the name "p". -/
def s_good : Settings :=
  { profiles := [("p", pcGood)], current_profile := "default",
    connection := .noop, client_provider := prov0 }

/-- C2 witness: `store_invariant_amended` at a concrete successful switch. -/
theorem store_invariant_amended_witness :
    (s_good.switch_profile "p").2 = none ∧
    (s_good.switch_profile "p").1.current_profile = "p" := by
  refine ⟨by decide, ?_⟩
  exact ((store_invariant_amended prov0 s_good "p" pcGood (.legacy pcGood)).2.2.1
    (by decide)).1

/-- The staging profile of the repository's own test fixtures. -/
def pcStaging : ProfileConfig :=
  { type := some "rds-secretsmanager",
    cluster_arn := some "arn:aws:rds:us-west-2:123456789012:cluster:staging-cluster",
    secret_arn := some "arn:aws:secretsmanager:us-west-2:123456789012:secret:staging-secret",
    database := some "staging_db" }

/-- C3 (code bug): loading a well-formed multi-profile configuration whose
profile set lacks "default" (here: only "staging", the requested initial
profile of the repository's own tests) does not activate the requested
profile nor fall back to the first one — `load_from_file` unconditionally
switches to "default" and raises ProfileNotFound, leaving the null
connection and the stale current name. -/
theorem load_ignores_requested_profile :
    ((Settings.init prov0).load_from_file (.multi [("staging", pcStaging)])).2
      = some (.profileNotFound "default") ∧
    ((Settings.init prov0).load_from_file
        (.multi [("staging", pcStaging)])).1.current_profile = "default" ∧
    ((Settings.init prov0).load_from_file
        (.multi [("staging", pcStaging)])).1.connection = .noop := by
  refine ⟨by decide, by decide, ?_⟩
  rfl

/-- Helper: looking up a freshly appended binding finds it. -/
theorem lookup_append_fresh {α : Type} (l : List (String × α)) (name : String)
    (pc : α) (h : l.lookup name = none) :
    (l ++ [(name, pc)]).lookup name = some pc := by
  induction l with
  | nil => simp [List.lookup]
  | cons hd tl ih =>
    obtain ⟨k, v⟩ := hd
    cases hbe : name == k with
    | true =>
      simp only [List.lookup, hbe] at h
      cases h
    | false =>
      simp only [List.lookup, hbe, List.cons_append] at h ⊢
      exact ih h

/-- Helper: the `missing_fields` list is empty iff all four required keys are
present. -/
theorem missing_fields_eq_nil (pc : ProfileConfig) :
    missing_fields pc = [] ↔
      (pc.type.isSome ∧ pc.cluster_arn.isSome ∧ pc.secret_arn.isSome ∧
        pc.database.isSome) := by
  obtain ⟨t, ca, sa, db, cr⟩ := pc
  cases t <;> cases ca <;> cases sa <;> cases db <;> simp [missing_fields]

/-- Helper: with a provider that always succeeds, connection construction
succeeds iff the profile has the recognized type value, the three identifier
keys present, and a target identifier with at least four colon-separated
segments. -/
theorem create_connection_ok_iff (pc : ProfileConfig) (prov : ClientProvider)
    (hprov : ∀ a r, ∃ c, prov a r = .ok c) :
    (∃ conn, create_connection_from_profile pc prov = .ok conn) ↔
    (pc.type = some "rds-secretsmanager" ∧ pc.cluster_arn.isSome ∧
      pc.secret_arn.isSome ∧ pc.database.isSome ∧
      3 < (pySplit (pc.cluster_arn.getD "") ':').length) := by
  constructor
  · rintro ⟨conn, hconn⟩
    by_cases ht : pc.type = some "rds-secretsmanager"
    · cases hca : pc.cluster_arn with
      | none => simp [create_connection_from_profile, ht, hca] at hconn
      | some a =>
        by_cases hlen : 3 < (pySplit a ':').length
        · cases hsa : pc.secret_arn with
          | none =>
            simp [create_connection_from_profile, ht, hca, get_region,
              dif_pos hlen, hsa] at hconn
            split at hconn <;> cases hconn
          | some sv =>
            cases hdb : pc.database with
            | none =>
              simp [create_connection_from_profile, ht, hca, get_region,
                dif_pos hlen, hsa, hdb] at hconn
              split at hconn <;> cases hconn
            | some dv =>
              exact ⟨ht, by simp, by simp, by simp, by simpa using hlen⟩
        · simp [create_connection_from_profile, ht, hca, get_region,
            dif_neg hlen] at hconn
    · simp [create_connection_from_profile, ht] at hconn
  · rintro ⟨ht, hca, hsa, hdb, hlen⟩
    obtain ⟨a, ha⟩ := Option.isSome_iff_exists.mp hca
    obtain ⟨sv, hs⟩ := Option.isSome_iff_exists.mp hsa
    obtain ⟨dv, hd⟩ := Option.isSome_iff_exists.mp hdb
    rw [ha, Option.getD_some] at hlen
    obtain ⟨client, hc⟩ := hprov (pc.credentials_profile.getD "default")
      ((pySplit a ':').get ⟨3, hlen⟩)
    simp only [List.get_eq_getElem] at hc
    refine ⟨.rds a sv dv client, ?_⟩
    simp [create_connection_from_profile, ht, ha, hs, hd, get_region,
      dif_pos hlen, hc]

/-- C5 (amended): with a fresh name and a provider that always succeeds,
`add(name, Profile)` followed by `switch(name)` succeeds iff the profile has
the four required keys present with the recognized type value and a target
identifier of at least four colon-separated segments — presence, not
§3 non-emptiness, is what the code checks, plus the region-index bound that
§3 does not mention. -/
theorem add_then_switch_iff (s : Settings) (name : String) (pc : ProfileConfig)
    (hfresh : s.profiles.lookup name = none)
    (hprov : ∀ a r, ∃ c, s.client_provider a r = .ok c) :
    ((s.add_profile name pc).2 = none ∧
      ((s.add_profile name pc).1.switch_profile name).2 = none) ↔
    (pc.type = some "rds-secretsmanager" ∧ pc.cluster_arn.isSome ∧
      pc.secret_arn.isSome ∧ pc.database.isSome ∧
      3 < (pySplit (pc.cluster_arn.getD "") ':').length) := by
  constructor
  · rintro ⟨hadd, hswitch⟩
    by_cases hm : missing_fields pc = []
    · by_cases ht : pc.type = some "rds-secretsmanager"
      · have hl := lookup_append_fresh s.profiles name pc hfresh
        have hadd1 : (s.add_profile name pc).1 =
            { s with profiles := s.profiles ++ [(name, pc)] } := by
          simp [Settings.add_profile, hfresh, hm, ht]
        rw [hadd1] at hswitch
        cases hc : create_connection_from_profile pc s.client_provider with
        | error e => simp [Settings.switch_profile, hl, hc] at hswitch
        | ok conn =>
          exact (create_connection_ok_iff pc s.client_provider hprov).mp ⟨conn, hc⟩
      · exfalso
        simp [Settings.add_profile, hfresh, hm, ht] at hadd
    · exfalso
      simp [Settings.add_profile, hfresh, hm] at hadd
  · rintro ⟨ht, hca, hsa, hdb, hlen⟩
    have hm : missing_fields pc = [] :=
      (missing_fields_eq_nil pc).mpr ⟨by simp [ht], hca, hsa, hdb⟩
    have hadd1 : s.add_profile name pc =
        ({ s with profiles := s.profiles ++ [(name, pc)] }, none) := by
      simp [Settings.add_profile, hfresh, hm, ht]
    obtain ⟨conn, hc⟩ := (create_connection_ok_iff pc s.client_provider hprov).mpr
      ⟨ht, hca, hsa, hdb, hlen⟩
    have hl := lookup_append_fresh s.profiles name pc hfresh
    rw [hadd1]
    exact ⟨rfl, by simp [Settings.switch_profile, hl, hc]⟩

/-- Modelled from the spec (§3): the Profile invariant — a recognized kind
and non-empty `target_identifier`, `secret_identifier` and `database_name`
(a `getD ""` of `""` covers both an absent and an empty field). -/
def spec_profile_invariant (pc : ProfileConfig) : Bool :=
  (pc.type == some "rds-secretsmanager") &&
  (pc.cluster_arn.getD "" != "") &&
  (pc.secret_arn.getD "" != "") &&
  (pc.database.getD "" != "")

/-- A profile violating §3 (empty secret identifier) that the code accepts. -/
def pcEmptySecret : ProfileConfig :=
  { type := some "rds-secretsmanager",
    cluster_arn := some "arn:aws:rds:us-east-1:1:cluster:c",
    secret_arn := some "", database := some "db" }

/-- C5 counterexample: `add` then `switch` both succeed on a profile whose
secret identifier is empty, i.e. a profile violating the §3 invariant the
claim says is equivalent to success. -/
theorem add_then_switch_counterexample :
    ((Settings.init prov0).add_profile "q" pcEmptySecret).2 = none ∧
    (((Settings.init prov0).add_profile "q" pcEmptySecret).1.switch_profile "q").2
      = none ∧
    spec_profile_invariant pcEmptySecret = false := by
  decide

/-- C5 witness: `add_then_switch_iff` at a fully well-formed concrete profile. -/
theorem add_then_switch_iff_witness :
    ((Settings.init prov0).add_profile "p" pcGood).2 = none ∧
    (((Settings.init prov0).add_profile "p" pcGood).1.switch_profile "p").2
      = none := by
  have h := add_then_switch_iff (Settings.init prov0) "p" pcGood rfl
    (fun a r => ⟨client0, rfl⟩)
  exact h.mpr (by decide)

/-- C10: connection construction is not total over profiles accepted by
`add`: a profile whose target identifier has fewer than four colon-separated
segments passes `add`'s key-presence checks, yet activating it via `switch`
(or via `load` of a config holding it) fails with the unguarded IndexError
of region derivation rather than a taxonomy error. -/
theorem short_arn_accepted_then_index_error (s : Settings) (name : String)
    (pc : ProfileConfig) (hfresh : s.profiles.lookup name = none)
    (ht : pc.type = some "rds-secretsmanager")
    (hca : pc.cluster_arn.isSome = true)
    (hshort : ¬ 3 < (pySplit (pc.cluster_arn.getD "") ':').length)
    (hsa : pc.secret_arn.isSome = true) (hdb : pc.database.isSome = true) :
    (s.add_profile name pc).2 = none ∧
    ((s.add_profile name pc).1.switch_profile name).2 = some .indexError ∧
    (s.load_from_file (.legacy pc)).2 = some .indexError := by
  obtain ⟨a, ha⟩ := Option.isSome_iff_exists.mp hca
  rw [ha, Option.getD_some] at hshort
  have hm : missing_fields pc = [] :=
    (missing_fields_eq_nil pc).mpr ⟨by simp [ht], hca, hsa, hdb⟩
  have hadd1 : s.add_profile name pc =
      ({ s with profiles := s.profiles ++ [(name, pc)] }, none) := by
    simp [Settings.add_profile, hfresh, hm, ht]
  have hc : ∀ prov : ClientProvider,
      create_connection_from_profile pc prov = .error .indexError := by
    intro prov
    simp [create_connection_from_profile, ht, ha, get_region, dif_neg hshort]
  have hl := lookup_append_fresh s.profiles name pc hfresh
  refine ⟨by rw [hadd1], ?_, ?_⟩
  · rw [hadd1]
    simp [Settings.switch_profile, hl, hc]
  · have hld : ([(DEFAULT_PROFILE, pc)] : List (String × ProfileConfig)).lookup
        DEFAULT_PROFILE = some pc := by simp [List.lookup]
    simp [Settings.load_from_file, Settings.switch_profile, hld, hc]

/-- A profile whose target identifier is the empty string (one segment). -/
def pcEmptyArn : ProfileConfig :=
  { type := some "rds-secretsmanager", cluster_arn := some "",
    secret_arn := some "s", database := some "d" }

/-- C10 witness: `short_arn_accepted_then_index_error` at the empty-string
target identifier. -/
theorem short_arn_accepted_then_index_error_witness :
    ((Settings.init prov0).add_profile "r" pcEmptyArn).2 = none ∧
    (((Settings.init prov0).add_profile "r" pcEmptyArn).1.switch_profile "r").2
      = some .indexError := by
  have h := short_arn_accepted_then_index_error (Settings.init prov0) "r"
    pcEmptyArn rfl rfl rfl (by decide) rfl rfl
  exact ⟨h.1, h.2.1⟩

/-- Helper: the `.profile` handler never lets an exception escape — the
switch is wrapped in `try/except` and every arity branch just prints. -/
theorem profile_command_no_crash (st : LoopState) (cmd_args : List String) :
    (profile_command st cmd_args).crashed = none := by
  unfold profile_command
  split
  · rfl
  · split
    · rfl
    · dsimp only
      split <;> rfl

/-- Helper: a non-command line ending with the terminator (or empty) flushes:
one execute call with the whole buffer, a printed result or error line, a
cleared buffer, and no escaping exception. -/
theorem step_flush (env : Env) (st : LoopState) (line : String)
    (hdot : firstCharIs line '.' = false)
    (hflush : endsWithChar line ';' = true ∨ line = "") :
    ∃ out, step env st line =
      { state := { st with buffer := "" }, printed := [out],
        execCalls := [st.buffer ++ line], crashed := none } := by
  unfold step
  rw [if_neg (by simp [hdot]), if_pos hflush]
  dsimp only
  cases h : st.settings.connection.execute (st.buffer ++ line) with
  | ok r => exact ⟨.result r, rfl⟩
  | error e => exact ⟨.errorText e, rfl⟩

/-- Helper: a nonempty non-command line without the terminator accumulates:
the line plus a separator is appended to the buffer, nothing is executed or
printed, and no exception escapes. -/
theorem step_accumulate (env : Env) (st : LoopState) (line : String)
    (hdot : firstCharIs line '.' = false)
    (hsemi : endsWithChar line ';' = false) (hne : line ≠ "") :
    step env st line =
      { state := { st with buffer := st.buffer ++ line ++ " " }, printed := [],
        execCalls := [], crashed := none } := by
  unfold step
  rw [if_neg (by simp [hdot]), if_neg (by simp [hsemi, hne])]

/-- A concrete environment whose config reads always fail to parse and whose
interactive add-profile flow does nothing. -/
def env0 : Env :=
  { fs := fun _ => .error (.parseError "boom"),
    addprofile := fun st => (st, none, []) }

/-- A concrete initial loop state. -/
def st0 : LoopState :=
  { settings := Settings.init prov0, config_file := none,
    is_debug := false, buffer := "" }

/-- C6 counterexample: a `.config` line whose configuration read fails lets
the exception escape the loop body uncaught — it is not converted to a
printed error line, so handling this input line terminates the process. -/
theorem loop_error_policy_counterexample :
    (step env0 st0 ".config c.yaml").crashed = some (.parseError "boom") ∧
    (step env0 st0 ".config c.yaml").printed = [] := by
  constructor
  · decide
  · rfl

/-- C6 (amended): errors raised on any input line other than a `.config` or
`.addprofile` command are caught at the loop boundary — in particular the
flush of buffered SQL never crashes, prints its result or error, clears the
buffer even on failure, and the `.profile` handler catches its own errors —
but an error escaping a `.config` load (or the interactive `.addprofile`
flow) propagates and terminates the process. -/
theorem loop_error_policy (env : Env) (st : LoopState) (line : String)
    (hcfg : (pySplit line ' ').headD "" ≠ ".config")
    (hadd : (pySplit line ' ').headD "" ≠ ".addprofile") :
    (step env st line).crashed = none ∧
    (firstCharIs line '.' = false → (endsWithChar line ';' = true ∨ line = "") →
      (step env st line).state.buffer = "" ∧
      (step env st line).execCalls = [st.buffer ++ line]) := by
  constructor
  · by_cases hdot : firstCharIs line '.' = true
    · unfold step
      rw [if_pos hdot]
      dsimp only
      by_cases h1 : (pySplit line ' ').headD "" = ".help"
      · rw [if_pos h1]
      · rw [if_neg h1]
        by_cases h2 : (pySplit line ' ').headD "" = ".show"
        · rw [if_pos h2]
        · rw [if_neg h2]
          by_cases h3 : (pySplit line ' ').headD "" = ".debug"
          · rw [if_pos h3]
          · rw [if_neg h3, if_neg hcfg]
            by_cases h5 : (pySplit line ' ').headD "" = ".profile"
            · rw [if_pos h5]
              exact profile_command_no_crash st (pySplit line ' ')
            · rw [if_neg h5]
              by_cases h6 : (pySplit line ' ').headD "" = ".profiles"
              · rw [if_pos h6]
              · rw [if_neg h6, if_neg hadd]
    · have hdot' : firstCharIs line '.' = false := by
        cases hb : firstCharIs line '.'
        · rfl
        · exact absurd hb hdot
      by_cases hflush : endsWithChar line ';' = true ∨ line = ""
      · obtain ⟨out, hstep⟩ := step_flush env st line hdot' hflush
        rw [hstep]
      · rw [step_accumulate env st line hdot'
          (by rcases hb : endsWithChar line ';' with _ | _
              · rfl
              · exact absurd (Or.inl hb) hflush)
          (fun he => hflush (Or.inr he))]
  · intro hdot hflush
    obtain ⟨out, hstep⟩ := step_flush env st line hdot hflush
    rw [hstep]
    exact ⟨rfl, rfl⟩

/-- C6 witness: `loop_error_policy` at a concrete flush line. -/
theorem loop_error_policy_witness :
    (step env0 st0 ";").crashed = none ∧ (step env0 st0 ";").state.buffer = "" := by
  have h := loop_error_policy env0 st0 ";" (by decide) (by decide)
  exact ⟨h.1, (h.2 (by decide) (Or.inl (by decide))).1⟩

/-- Helper: from any starting buffer, a run of accumulating lines followed by
one flushing line produces exactly one execute call carrying the separator-
joined buffer, ends with a cleared buffer, and never crashes. -/
theorem runLines_accumulate (env : Env) (init : List String) :
    ∀ st : LoopState,
    (∀ l ∈ init, l ≠ "" ∧ firstCharIs l '.' = false ∧
      endsWithChar l ';' = false) →
    ∀ last : String, firstCharIs last '.' = false →
    (endsWithChar last ';' = true ∨ last = "") →
    (runLines env st (init ++ [last])).execCalls =
      [(init.foldl (fun b l => b ++ l ++ " ") st.buffer) ++ last] ∧
    (runLines env st (init ++ [last])).state.buffer = "" ∧
    (runLines env st (init ++ [last])).crashed = none := by
  induction init with
  | nil =>
    intro st _ last hdot hflush
    have hq : last ≠ ".quit" := by
      intro he
      rw [he] at hdot
      exact absurd hdot (by decide)
    obtain ⟨out, hstep⟩ := step_flush env st last hdot hflush
    refine ⟨?_, ?_, ?_⟩ <;> simp [runLines, hq, hstep]
  | cons l tl ih =>
    intro st hacc last hdot hflush
    obtain ⟨hne, hld, hlsemi⟩ := hacc l (by simp)
    have hq : l ≠ ".quit" := by
      intro he
      rw [he] at hld
      exact absurd hld (by decide)
    have hstep := step_accumulate env st l hld hlsemi hne
    have ihh := ih { st with buffer := st.buffer ++ l ++ " " }
      (fun x hx => hacc x (List.mem_cons_of_mem l hx)) last hdot hflush
    refine ⟨?_, ?_, ?_⟩ <;>
      simp [runLines, hq, hstep, ihh.1, ihh.2.1, ihh.2.2]

/-- C8: starting from an empty buffer (Idle), each non-command line that is
nonempty and does not end with the statement terminator is appended to the
buffer with a separator and triggers no execute call; the first line that
ends with the terminator or is itself empty triggers exactly one execute
call whose argument is the full concatenated buffer, after which the buffer
is cleared. -/
theorem buffer_single_execute (env : Env) (st : LoopState) (init : List String)
    (last : String) (hbuf : st.buffer = "")
    (hacc : ∀ l ∈ init, l ≠ "" ∧ firstCharIs l '.' = false ∧
      endsWithChar l ';' = false)
    (hdot : firstCharIs last '.' = false)
    (hflush : endsWithChar last ';' = true ∨ last = "") :
    (runLines env st (init ++ [last])).execCalls =
      [(init.foldl (fun b l => b ++ l ++ " ") "") ++ last] ∧
    (runLines env st (init ++ [last])).state.buffer = "" := by
  have h := runLines_accumulate env init st hacc last hdot hflush
  rw [hbuf] at h
  exact ⟨h.1, h.2.1⟩

/-- C8 witness: the spec scenario — input lines "SELECT 1" then ";" trigger
exactly one execute call, with the concatenated buffer "SELECT 1 ;". -/
theorem buffer_single_execute_witness :
    (runLines env0 st0 ["SELECT 1", ";"]).execCalls = ["SELECT 1 ;"] := by
  have h := buffer_single_execute env0 st0 ["SELECT 1"] ";" rfl
    (by decide) (by decide) (Or.inl (by decide))
  exact h.1.trans (by decide)
